import Mathlib

/-!
Verification of the racs_bot conversation-relay service.

The development shallowly embeds the two source revisions:
* `app.py`: history normalization in `chat_endpoint`, reply extraction and
  the error boundary in `generate_response`;
* `main.py`: the leaner `chat` handler (history conversion, message append,
  uncaught Gateway call).

Python JSON values are modelled over string-valued fields: a history item
carries an optional `role` string and a `parts` field that is absent, a
non-list, or a list of parts; a part is either a JSON object (whose `text`
key, when present, holds a string) or some non-dict value.  Python
truthiness of strings/lists ("" and [] are falsy) is made explicit at each
use site.  Exceptions are modelled with `Except`.
-/

/-- One element of the `parts` list of a raw history item.
`dict t` is a JSON object; `t = some s` iff it has a `"text"` key (value `s`).
`other` is any non-dict JSON value. -/
inductive RawPart where
  | dict (text : Option String)
  | other
deriving DecidableEq, Repr

/-- The `parts` field of a raw history item: missing, present but not a
list, or a list of parts. -/
inductive RawParts where
  | absent
  | notList
  | list (ps : List RawPart)
deriving DecidableEq, Repr

/-- One raw history item `{"role": ..., "parts": ...}`; `role = none` when
the key is missing. -/
structure RawItem where
  role : Option String
  parts : RawParts
deriving DecidableEq, Repr

/-- A normalized turn: the `Content(role=..., parts=...)` object built by
`chat_endpoint`; `parts` holds the text of each `Part.from_text`. -/
structure Turn where
  role : String
  parts : List String
deriving DecidableEq, Repr

/-- app.py line 261: `[Part.from_text(p.get("text","")) for p in parts_raw
if isinstance(p, dict) and "text" in p]` — the texts of the dict parts that
carry a `"text"` key. -/
def textParts (ps : List RawPart) : List String :=
  ps.filterMap fun p =>
    match p with
    | RawPart.dict (some t) => some t
    | _ => none

/-- Python's `str.lower()` on the role strings involved (character-wise
ASCII lowercasing). -/
def lower (s : String) : String :=
  String.mk (s.data.map Char.toLower)

/-- app.py lines 252-267, one loop iteration: `none` when the item is
skipped (`continue`), otherwise the appended `Content`.  The guards mirror
`if not role or role.lower() not in ["user","model"] or not parts_raw or
not isinstance(parts_raw, list): continue` and `if not text_parts:
continue`. -/
def normItem (item : RawItem) : Option Turn :=
  match item.role with
  | none => none
  | some role =>
    if role = "" then none
    else if ¬ (lower role = "user" ∨ lower role = "model") then none
    else
      match item.parts with
      | RawParts.absent => none
      | RawParts.notList => none
      | RawParts.list [] => none
      | RawParts.list (p :: ps) =>
        if textParts (p :: ps) = [] then none
        else some ⟨lower role, textParts (p :: ps)⟩

/-- app.py lines 250-267: the whole conversion loop building
`history_content` from `history_raw`. -/
def normalizeLoop (h : List RawItem) : List Turn :=
  h.filterMap normItem

/-- One part of a Gateway response candidate's content.  `text = some s`
iff `hasattr(part, "text")`; the vertexai SDK also produces parts without
a text attribute (e.g. function calls). -/
structure RespPart where
  text : Option String
deriving DecidableEq, Repr

/-- One response candidate.  `contentParts = none` models a falsy
`candidate.content`; `some ps` a content whose `parts` list is `ps`
(possibly empty, hence falsy).  `finish = some name` models a truthy
`candidate.finish_reason` with enum name `name`; `none` an absent or
falsy (unspecified) finish reason. -/
structure Candidate where
  contentParts : Option (List RespPart)
  finish : Option String
deriving DecidableEq, Repr

/-- A raw Gateway response.  `text = some s` iff `hasattr(response, "text")`
(`s` may be `""`, which is falsy). -/
structure RawResponse where
  candidates : List Candidate
  text : Option String
deriving DecidableEq, Repr

/-- app.py line 189: `"".join(part.text for part in parts if
hasattr(part, "text"))`. -/
def partsText (ps : List RespPart) : String :=
  String.join (ps.filterMap RespPart.text)

/-- Python's `s.startswith(pre)`. -/
def startswith (s pre : String) : Bool :=
  List.isPrefixOf pre.data s.data

def configErrorMsg : String := "Error: Backend server configuration issue. Please check logs."

def emptyPartsMsg : String := "Error: Model returned empty parts."

def safetyBlockedMsg : String := "Error: The response was blocked due to safety settings."

def otherStopMsg (reason : String) : String :=
  "Error: Model generation stopped unexpectedly (Reason: " ++ reason ++ ")."

def malformedMsg : String := "Error: Could not process the model's response format."

def transportErrorMsg : String := "Error: An exception occurred while communicating with the AI model."

/-- app.py lines 199-209: the last two branches of the extraction chain
(`elif response.candidates and response.candidates[0].finish_reason: ...`
and the final `else`). -/
def extractC (r : RawResponse) : String :=
  match r.candidates with
  | c :: _ =>
    match c.finish with
    | some reason => if reason = "SAFETY" then safetyBlockedMsg else otherStopMsg reason
    | none => malformedMsg
  | [] => malformedMsg

/-- app.py lines 196-198: `elif hasattr(response, "text") and
response.text: return response.text`, falling through to `extractC`. -/
def extractB (r : RawResponse) : String :=
  match r.text with
  | some t => if t = "" then extractC r else t
  | none => extractC r

/-- app.py lines 188-209: the full reply-extraction chain of
`generate_response`.  The first branch fires when `response.candidates`,
`candidates[0].content` and `candidates[0].content.parts` are all
truthy. -/
def extract_reply (r : RawResponse) : String :=
  match r.candidates with
  | c :: _ =>
    match c.contentParts with
    | some (p :: ps) =>
      if partsText (p :: ps) = "" then emptyPartsMsg else partsText (p :: ps)
    | _ => extractB r
  | [] => extractB r

/-- Outcome of the Gateway call `model.generate_content(...)`: a response
object, or a raised exception carrying a message. -/
inductive GwResult where
  | ok (r : RawResponse)
  | exn (e : String)
deriving DecidableEq, Repr

/-- app.py lines 133-214: `generate_response`.  Returns the configuration
error when initialization failed (lines 144-146); otherwise the `try`
block runs the Gateway call: a raised exception is caught by the
`except Exception` handler (lines 211-214) and mapped to
`transportErrorMsg`; a returned response goes through `extract_reply`. -/
def generate_response (initOk : Bool) (gw : GwResult) : String :=
  if ¬ initOk then configErrorMsg
  else
    match gw with
    | GwResult.exn _ => transportErrorMsg
    | GwResult.ok r => extract_reply r

/-- The JSON body's `history` field: missing key, present but not a list,
or a list of raw items. -/
inductive HistoryField where
  | notList
  | list (items : List RawItem)
deriving DecidableEq, Repr

/-- The JSON body returned by `chat_endpoint`: an error object or a
response object. -/
inductive Body where
  | error (msg : String)
  | response (msg : String)
deriving DecidableEq, Repr

/-- An HTTP reply: status code and JSON body. -/
structure HttpResponse where
  status : Nat
  body : Body
deriving DecidableEq, Repr

def missingHistoryMsg : String := "Missing 'history' field in JSON request body"

def notListMsg : String := "'history' must be a list of message objects"

def noValidContentMsg : String := "No valid message content found in 'history'"

/-- app.py lines 241-288: `chat_endpoint` after the content-type check.
`history = none` models a missing `history` key.  Note `if not
history_raw:` (line 244) fires both for a missing key (`None`) and for an
empty list, since both are falsy in Python; `history_content` is built by
the conversion loop, and an all-skipped non-empty history yields the
no-valid-content error (lines 269-270).  The final classification (lines
282-283) keys on `response_text.startswith("Error:")`. -/
def chat_endpoint (gw : List Turn → GwResult) (initOk : Bool)
    (history : Option HistoryField) : HttpResponse :=
  match history with
  | none => ⟨400, Body.error missingHistoryMsg⟩
  | some (HistoryField.list []) => ⟨400, Body.error missingHistoryMsg⟩
  | some HistoryField.notList => ⟨400, Body.error notListMsg⟩
  | some (HistoryField.list (i :: is)) =>
    let history_content := normalizeLoop (i :: is)
    if history_content = [] then ⟨400, Body.error noValidContentMsg⟩
    else
      let response_text := generate_response initOk (gw history_content)
      if response_text ≠ "" ∧ startswith response_text "Error:" = true then
        ⟨500, Body.error response_text⟩
      else ⟨200, Body.response response_text⟩

/-- One item of main.py's `history` field: an object carrying `role` and
`content` strings. -/
structure MainMsg where
  role : String
  content : String
deriving DecidableEq, Repr

/-- The JSON body consumed by main.py's `chat`: optional `message` and
`history` keys. -/
structure MainData where
  message : Option String
  history : Option (List MainMsg)
deriving DecidableEq, Repr

/-- main.py lines 64-71: one history message converted to a `Content`;
`role = "user" if message["role"] == "user" else "model"` (case-sensitive
comparison), parts `[Part.from_text(text=message["content"])]`. -/
def convMsg (m : MainMsg) : Turn :=
  ⟨if m.role = "user" then "user" else "model", [m.content]⟩

/-- main.py lines 13-79: the `contents` list submitted to the Gateway —
the converted history (the `if conversation_history:` loop, lines 63-71)
followed by the new user message (lines 74-79), where
`user_message = data.get("message", "")`. -/
def mainContents (d : MainData) : List Turn :=
  let conversation_history := d.history.getD []
  let contents : List Turn := []
  let contents :=
    if conversation_history = [] then contents
    else conversation_history.foldl (fun acc m => acc ++ [convMsg m]) contents
  contents ++ [⟨"user", [d.message.getD ""]⟩]

/-- main.py lines 101-109: `chat`'s Gateway call and reply.  There is no
`try`/`except` around `client.models.generate_content`, so a raised
exception propagates to the caller; on success the handler returns
`jsonify({"response": response.text})`. -/
def mainChat (gw : List Turn → Except String String) (d : MainData) :
    Except String String :=
  match gw (mainContents d) with
  | Except.error e => Except.error e
  | Except.ok t => Except.ok t

/-- Spec-side characterization of a surviving history item (for the
refinement statement about the normalizer): a recognized role
(case-insensitively `user` or `model`), a parts list, and at least one
dict part carrying a `"text"` key. -/
def specWellFormed (item : RawItem) : Bool :=
  match item.role, item.parts with
  | some r, RawParts.list ps =>
    (lower r == "user" || lower r == "model") && !(textParts ps).isEmpty
  | _, _ => false

/-- Spec-side turn built from a well-formed item: lowercased role and the
texts of its `"text"`-keyed dict parts, in order. -/
def specTurnOf (item : RawItem) : Turn :=
  match item.role, item.parts with
  | some r, RawParts.list ps => ⟨lower r, textParts ps⟩
  | _, _ => ⟨"", []⟩

/-- Re-inject a normalized turn as a raw history item (each text becomes a
`{"text": ...}` part), to state idempotence of normalization. -/
def turnToRaw (t : Turn) : RawItem :=
  ⟨some t.role, RawParts.list (t.parts.map fun s => RawPart.dict (some s))⟩

theorem textParts_ne_nil {ps : List RawPart} (h : textParts ps ≠ []) : ps ≠ [] := by
  intro hps; subst hps; exact h rfl

/-- `normItem` agrees pointwise with the spec-side filter/map pair. -/
theorem normItem_eq_spec (item : RawItem) :
    normItem item = if specWellFormed item then some (specTurnOf item) else none := by
  rcases item with ⟨role, parts⟩
  cases role with
  | none => rfl
  | some r =>
    by_cases hre : r = ""
    · subst hre
      cases parts with
      | absent => rfl
      | notList => rfl
      | list ps =>
        have h1 : (lower "" == "user" || lower "" == "model") = false := by decide
        simp [normItem, specWellFormed, h1]
    · by_cases hu : lower r = "user" ∨ lower r = "model"
      · have h1 : (lower r == "user" || lower r == "model") = true := by
          rcases hu with h | h <;> simp [h]
        cases parts with
        | absent => simp [normItem, specWellFormed, hre, hu]
        | notList => simp [normItem, specWellFormed, hre, hu]
        | list ps =>
          cases ps with
          | nil => simp [normItem, specWellFormed, hre, hu, h1, textParts]
          | cons p ps' =>
            by_cases ht : textParts (p :: ps') = []
            · simp [normItem, specWellFormed, specTurnOf, hre, hu, h1, ht]
            · simp [normItem, specWellFormed, specTurnOf, hre, hu, h1, ht]
      · have h1 : (lower r == "user" || lower r == "model") = false := by
          push_neg at hu; simp [hu.1, hu.2]
        cases parts with
        | absent => simp [normItem, specWellFormed, hre, hu]
        | notList => simp [normItem, specWellFormed, hre, hu]
        | list ps => simp [normItem, specWellFormed, hre, hu, h1]

theorem textParts_map_dict (l : List String) :
    textParts (l.map fun s => RawPart.dict (some s)) = l := by
  induction l with
  | nil => rfl
  | cons a l ih => simpa [textParts, List.filterMap_cons] using ih

/-- Items kept by `normItem` carry a canonical role and a non-empty parts
list. -/
theorem normItem_some_inv {item : RawItem} {t : Turn} (h : normItem item = some t) :
    (t.role = "user" ∨ t.role = "model") ∧ t.parts ≠ [] := by
  rw [normItem_eq_spec] at h
  split at h
  · next hwf =>
    rcases item with ⟨role, parts⟩
    injection h with h; subst h
    cases role with
    | none => simp [specWellFormed] at hwf
    | some r =>
      cases parts with
      | absent => simp [specWellFormed] at hwf
      | notList => simp [specWellFormed] at hwf
      | list ps =>
        simp only [specWellFormed, Bool.and_eq_true, Bool.or_eq_true, beq_iff_eq,
          Bool.not_eq_true', List.isEmpty_eq_false] at hwf
        exact ⟨hwf.1, by simpa [specTurnOf] using hwf.2⟩
  · exact absurd h (by simp)

/-- Normalized turns re-injected as raw items survive re-normalization
unchanged. -/
theorem normItem_turnToRaw {t : Turn} (hrole : t.role = "user" ∨ t.role = "model")
    (hp : t.parts ≠ []) : normItem (turnToRaw t) = some t := by
  rw [normItem_eq_spec]
  rcases t with ⟨role, parts⟩
  simp only at hrole hp
  have hlow : lower role = role := by
    rcases hrole with h | h <;> (subst h; decide)
  have htp : textParts (parts.map fun s => RawPart.dict (some s)) = parts :=
    textParts_map_dict parts
  have hwf : specWellFormed (turnToRaw ⟨role, parts⟩) = true := by
    simp only [turnToRaw, specWellFormed, htp, hlow, Bool.and_eq_true, Bool.or_eq_true,
      beq_iff_eq, Bool.not_eq_true', List.isEmpty_eq_false]
    exact ⟨hrole, hp⟩
  rw [if_pos hwf]
  simp [specTurnOf, turnToRaw, htp, hlow]

theorem filterMap_turnToRaw_id (l : List Turn)
    (h : ∀ t ∈ l, (t.role = "user" ∨ t.role = "model") ∧ t.parts ≠ []) :
    l.filterMap (fun t => normItem (turnToRaw t)) = l := by
  induction l with
  | nil => rfl
  | cons a l ih =>
    have ha := h a (List.mem_cons_self a l)
    simp [List.filterMap_cons, normItem_turnToRaw ha.1 ha.2,
      ih fun t ht => h t (List.mem_cons_of_mem a ht)]

theorem foldl_append_map (l : List MainMsg) (acc : List Turn) :
    l.foldl (fun acc m => acc ++ [convMsg m]) acc = acc ++ l.map convMsg := by
  induction l generalizing acc with
  | nil => simp
  | cons a l ih => simp [List.foldl_cons, ih]

/-- C1 counterexample: in main.py's `chat` a transport exception raised by
the Gateway call propagates raw to the caller (there is no `try`/`except`
around `client.models.generate_content`), so it is not the claimed
`Failed(transport-error)` outcome. -/
theorem C1_counterexample :
    mainChat (fun _ => Except.error "ConnectionError: network unreachable")
        ⟨some "hi", some []⟩ =
      Except.error "ConnectionError: network unreachable" ∧
    (Except.error "ConnectionError: network unreachable" :
        Except String String) ≠ Except.ok transportErrorMsg := by
  exact ⟨rfl, by intro h; injection h⟩

/-- C1 (amended): in app.py, every exception raised during the Gateway
call is caught by `generate_response` and mapped to the transport-error
message, never propagated; in main.py's `chat`, an exception raised by the
Gateway call propagates raw to the caller. -/
theorem C1_transport_boundary :
    (∀ e : String, generate_response true (GwResult.exn e) = transportErrorMsg) ∧
    (∀ (gw : List Turn → Except String String) (d : MainData) (e : String),
      gw (mainContents d) = Except.error e → mainChat gw d = Except.error e) := by
  constructor
  · intro e; rfl
  · intro gw d e h
    unfold mainChat
    rw [h]

/-- C1 witness: the boundary behavior at a concrete exception. -/
theorem C1_witness :
    generate_response true (GwResult.exn "boom") = transportErrorMsg ∧
    mainChat (fun _ => Except.error "boom") ⟨none, none⟩ = Except.error "boom" :=
  ⟨C1_transport_boundary.1 "boom",
   C1_transport_boundary.2 (fun _ => Except.error "boom") ⟨none, none⟩ "boom" rfl⟩

/-- C2 counterexample: a history item whose only part carries the empty
string as text is kept, not skipped — a `Turn` with empty text enters the
Transcript. -/
theorem C2_counterexample :
    normalizeLoop [⟨some "user", RawParts.list [RawPart.dict (some "")]⟩] =
      [⟨"user", [""]⟩] ∧
    ([⟨"user", [""]⟩] : List Turn) ≠ [] := by decide

/-- C2 (amended): the normalizer skips an item exactly when none of its
parts is a dict carrying a `"text"` key; items whose parts carry text
equal to the empty string are kept, so a Turn whose texts are all empty
can enter the Transcript. -/
theorem C2_skip_no_text_key :
    ∀ (item : RawItem) (ps : List RawPart) (r : String),
      item.role = some r → item.parts = RawParts.list ps →
      (textParts ps = [] → normItem item = none) ∧
      ((lower r = "user" ∨ lower r = "model") → textParts ps ≠ [] →
        normItem item = some ⟨lower r, textParts ps⟩) := by
  intro item ps r hrole hparts
  constructor
  · intro htp
    rw [normItem_eq_spec]
    rcases item with ⟨role, parts⟩
    cases hrole; cases hparts
    simp [specWellFormed, htp]
  · intro hrec htp
    rw [normItem_eq_spec]
    rcases item with ⟨role, parts⟩
    cases hrole; cases hparts
    have hwf : specWellFormed ⟨some r, RawParts.list ps⟩ = true := by
      simp only [specWellFormed, Bool.and_eq_true, Bool.or_eq_true, beq_iff_eq,
        Bool.not_eq_true', List.isEmpty_eq_false]
      exact ⟨hrec, htp⟩
    rw [if_pos hwf]
    simp [specTurnOf]

/-- C2 witness: a text-keyless item is skipped; an empty-text item is
kept. -/
theorem C2_witness :
    normItem ⟨some "User", RawParts.list [RawPart.dict none]⟩ = none ∧
    normItem ⟨some "User", RawParts.list [RawPart.dict (some "")]⟩ =
      some ⟨"user", [""]⟩ := by
  constructor
  · exact (C2_skip_no_text_key ⟨some "User", RawParts.list [RawPart.dict none]⟩
      [RawPart.dict none] "User" rfl rfl).1 (by decide)
  · have h := (C2_skip_no_text_key ⟨some "User", RawParts.list [RawPart.dict (some "")]⟩
      [RawPart.dict (some "")] "User" rfl rfl).2 (Or.inl (by decide)) (by decide)
    simpa using h

/-- C3 counterexample: a present-but-empty history yields the
missing-history error (Python's `if not history_raw:` fires on `[]` as
well as on `None`), not the distinct no-valid-content failure the claim
requires. -/
theorem C3_counterexample :
    chat_endpoint (fun _ => GwResult.exn "e") true (some (HistoryField.list [])) =
      ⟨400, Body.error missingHistoryMsg⟩ ∧
    missingHistoryMsg ≠ noValidContentMsg := by
  exact ⟨rfl, by decide⟩

/-- C3 (amended): an absent history and a present-but-empty history both
yield the same missing-history validation failure and are not
distinguishable from each other; the no-valid-content failure arises only
for a non-empty history all of whose items are skipped. -/
theorem C3_missing_vs_empty :
    ∀ (gw : List Turn → GwResult) (init : Bool),
      chat_endpoint gw init none = ⟨400, Body.error missingHistoryMsg⟩ ∧
      chat_endpoint gw init (some (HistoryField.list [])) =
        ⟨400, Body.error missingHistoryMsg⟩ ∧
      ∀ (i : RawItem) (is : List RawItem), normalizeLoop (i :: is) = [] →
        chat_endpoint gw init (some (HistoryField.list (i :: is))) =
          ⟨400, Body.error noValidContentMsg⟩ := by
  intro gw init
  refine ⟨rfl, rfl, ?_⟩
  intro i is h
  simp [chat_endpoint, h]

/-- C3 witness: the three outcomes at concrete inputs. -/
theorem C3_witness :
    chat_endpoint (fun _ => GwResult.exn "e") true none =
      ⟨400, Body.error missingHistoryMsg⟩ ∧
    chat_endpoint (fun _ => GwResult.exn "e") true
      (some (HistoryField.list [⟨none, RawParts.absent⟩])) =
      ⟨400, Body.error noValidContentMsg⟩ :=
  ⟨(C3_missing_vs_empty (fun _ => GwResult.exn "e") true).1,
   (C3_missing_vs_empty (fun _ => GwResult.exn "e") true).2.2
     ⟨none, RawParts.absent⟩ [] rfl⟩

/-- C4 counterexample: (1) when the first candidate's parts concatenate to
the empty string the extractor returns the empty-parts error and does not
fall through to the non-empty top-level text; (2) a non-empty parts text
in a later candidate is not consulted (only the first candidate is). -/
theorem C4_counterexample :
    extract_reply ⟨[⟨some [⟨some ""⟩], none⟩], some "hi"⟩ = emptyPartsMsg ∧
    emptyPartsMsg ≠ "hi" ∧
    extract_reply ⟨[⟨none, none⟩, ⟨some [⟨some "hi"⟩], none⟩], none⟩ = malformedMsg ∧
    malformedMsg ≠ "hi" := by decide

/-- C4 (amended): the extractor inspects only the first candidate.  If its
content carries a non-empty parts list, the concatenation of its
text-bearing parts is returned when non-empty and the empty-parts failure
when empty — with no fall-through to the top-level text.  Only when the
first candidate lacks content parts (no candidates, falsy content, or
empty parts list) is the top-level text consulted, returned when
non-empty.  In particular, when both a non-empty first-candidate parts
text and a top-level text are present, the candidate-parts text wins. -/
theorem C4_priority :
    (∀ (c : Candidate) (rest : List Candidate) (t : Option String)
        (p : RespPart) (ps : List RespPart),
      c.contentParts = some (p :: ps) → partsText (p :: ps) ≠ "" →
      extract_reply ⟨c :: rest, t⟩ = partsText (p :: ps)) ∧
    (∀ (c : Candidate) (rest : List Candidate) (t : Option String)
        (p : RespPart) (ps : List RespPart),
      c.contentParts = some (p :: ps) → partsText (p :: ps) = "" →
      extract_reply ⟨c :: rest, t⟩ = emptyPartsMsg) ∧
    (∀ (c : Candidate) (rest : List Candidate) (t : String),
      (c.contentParts = none ∨ c.contentParts = some []) → t ≠ "" →
      extract_reply ⟨c :: rest, some t⟩ = t) ∧
    (∀ t : String, t ≠ "" → extract_reply ⟨[], some t⟩ = t) := by
  refine ⟨?_, ?_, ?_, ?_⟩
  · intro c rest t p ps hc htp
    simp [extract_reply, hc, htp]
  · intro c rest t p ps hc htp
    simp [extract_reply, hc, htp]
  · intro c rest t hc ht
    rcases hc with hc | hc <;> simp [extract_reply, extractB, hc, ht]
  · intro t ht
    simp [extract_reply, extractB, ht]

/-- C4 witness: each priority branch at a concrete response. -/
theorem C4_witness :
    extract_reply ⟨[⟨some [⟨some "a"⟩, ⟨some "b"⟩], none⟩], some "top"⟩ = "ab" ∧
    extract_reply ⟨[⟨some [⟨none⟩], none⟩], some "top"⟩ = emptyPartsMsg ∧
    extract_reply ⟨[⟨none, none⟩], some "top"⟩ = "top" ∧
    extract_reply ⟨[], some "top"⟩ = "top" := by
  refine ⟨?_, ?_, ?_, ?_⟩
  · have h := C4_priority.1 ⟨some [⟨some "a"⟩, ⟨some "b"⟩], none⟩ [] (some "top")
      ⟨some "a"⟩ [⟨some "b"⟩] rfl (by decide)
    simpa using h
  · exact C4_priority.2.1 ⟨some [⟨none⟩], none⟩ [] (some "top") ⟨none⟩ [] rfl (by decide)
  · exact C4_priority.2.2.1 ⟨none, none⟩ [] "top" (Or.inl rfl) (by decide)
  · exact C4_priority.2.2.2 "top" (by decide)

/-- C5 counterexample: in main.py's `chat`, the role string "USER" — a
case-insensitive match of "user" — is converted to `model` (the comparison
`message["role"] == "user"` is case-sensitive), and the item is kept, not
dropped. -/
theorem C5_counterexample :
    lower "USER" = "user" ∧ (convMsg ⟨"USER", "hi"⟩).role = "model" ∧
    ("model" : String) ≠ "user" := by decide

/-- C5 (amended): in app.py's `chat_endpoint`, role canonicalization is
case-insensitive and total — a role lowercasing to `user` or `model` is
kept with exactly that lowercased role, and an item with a missing or
unrecognized role string is dropped (`normItem` returns `none`, never
raising).  In main.py's `chat`, the comparison is case-sensitive equality
with "user": every other role string (including "USER") maps to `model`,
and no item is dropped. -/
theorem C5_roles :
    (∀ item : RawItem, item.role = none → normItem item = none) ∧
    (∀ (item : RawItem) (r : String), item.role = some r →
      lower r ≠ "user" → lower r ≠ "model" → normItem item = none) ∧
    (∀ (item : RawItem) (r : String) (t : Turn), item.role = some r →
      normItem item = some t →
      t.role = lower r ∧ (t.role = "user" ∨ t.role = "model")) ∧
    (∀ m : MainMsg, (convMsg m).role = if m.role = "user" then "user" else "model") := by
  refine ⟨?_, ?_, ?_, ?_⟩
  · intro item h
    rcases item with ⟨role, parts⟩
    cases h
    rfl
  · intro item r h hu hm
    rw [normItem_eq_spec]
    rcases item with ⟨role, parts⟩
    cases h
    cases parts <;> simp [specWellFormed, hu, hm]
  · intro item r t h hsome
    have hinv := normItem_some_inv hsome
    refine ⟨?_, hinv.1⟩
    rw [normItem_eq_spec] at hsome
    split at hsome
    · next hwf =>
      rcases item with ⟨role, parts⟩
      cases h
      injection hsome with hsome
      subst hsome
      cases parts with
      | absent => simp [specWellFormed] at hwf
      | notList => simp [specWellFormed] at hwf
      | list ps => rfl
    · exact absurd hsome (by simp)
  · intro m
    rfl

/-- C5 witness: the role handling at concrete items. -/
theorem C5_witness :
    normItem ⟨none, RawParts.list [RawPart.dict (some "x")]⟩ = none ∧
    normItem ⟨some "assistant", RawParts.list [RawPart.dict (some "x")]⟩ = none ∧
    (convMsg ⟨"Model", "x"⟩).role = "model" := by
  refine ⟨?_, ?_, ?_⟩
  · exact C5_roles.1 ⟨none, RawParts.list [RawPart.dict (some "x")]⟩ rfl
  · exact C5_roles.2.1 ⟨some "assistant", RawParts.list [RawPart.dict (some "x")]⟩
      "assistant" rfl (by decide) (by decide)
  · have h := C5_roles.2.2.2 ⟨"Model", "x"⟩
    simpa using h

/-- C6 counterexample: the first item lacks any non-empty text (its sole
part's text is the empty string) yet it is kept, so the normalizer does
not drop exactly the items lacking a recognized role or any non-empty
text. -/
theorem C6_counterexample :
    normalizeLoop [⟨some "user", RawParts.list [RawPart.dict (some "")]⟩,
                   ⟨some "model", RawParts.list [RawPart.dict (some "ok")]⟩] =
      [⟨"user", [""]⟩, ⟨"model", ["ok"]⟩] ∧
    ([⟨"user", [""]⟩, ⟨"model", ["ok"]⟩] : List Turn) ≠ [⟨"model", ["ok"]⟩] := by decide

/-- C6 (amended): the normalizer preserves the relative order of surviving
items and drops exactly the items lacking a case-insensitively recognized
role or any dict part carrying a `"text"` key (the text may be the empty
string): it equals the filter by `specWellFormed` followed by the per-item
conversion `specTurnOf`. -/
theorem C6_filter_map_order :
    ∀ h : List RawItem, normalizeLoop h = (h.filter specWellFormed).map specTurnOf := by
  intro h
  induction h with
  | nil => rfl
  | cons a l ih =>
    rw [normalizeLoop, List.filterMap_cons, normItem_eq_spec a]
    by_cases ha : specWellFormed a = true
    · simp [ha, List.filter_cons, ← ih, normalizeLoop]
    · simp [ha, List.filter_cons, ← ih, normalizeLoop]

/-- C7 counterexample: a sole candidate with finish reason "SAFETY" whose
content carries one part bearing no text — so it has no text parts — and
no top-level text yields the empty-parts failure, not the claimed
`Failed(safety-blocked)`. -/
theorem C7_counterexample :
    extract_reply ⟨[⟨some [⟨none⟩], some "SAFETY"⟩], none⟩ = emptyPartsMsg ∧
    emptyPartsMsg ≠ safetyBlockedMsg := by decide

/-- C7 (amended): when the sole candidate's content has no parts at all
(falsy content or an empty parts list) and there is no non-empty top-level
text, finish reason "SAFETY" yields exactly the safety-blocked failure and
any other truthy finish reason yields the other-stop-reason failure
carrying the reason; but when the content carries parts none of which
bear text, the extractor returns the empty-parts failure regardless of the
finish reason. -/
theorem C7_safety :
    (∀ (cp : Option (List RespPart)) (t : Option String) (reason : String),
      (cp = none ∨ cp = some []) → (t = none ∨ t = some "") →
      extract_reply ⟨[⟨cp, some reason⟩], t⟩ =
        if reason = "SAFETY" then safetyBlockedMsg else otherStopMsg reason) ∧
    (∀ (ps : List RespPart) (f t : Option String), ps ≠ [] → partsText ps = "" →
      extract_reply ⟨[⟨some ps, f⟩], t⟩ = emptyPartsMsg) := by
  constructor
  · intro cp t reason hcp ht
    rcases hcp with hcp | hcp <;> subst hcp <;>
      rcases ht with ht | ht <;> subst ht <;>
        simp [extract_reply, extractB, extractC]
  · intro ps f t hps htp
    cases ps with
    | nil => exact absurd rfl hps
    | cons p ps' => simp [extract_reply, htp]

/-- C7 witness: the safety block, another stop reason, and the textless
parts override at concrete responses. -/
theorem C7_witness :
    extract_reply ⟨[⟨none, some "SAFETY"⟩], none⟩ = safetyBlockedMsg ∧
    extract_reply ⟨[⟨some [], some "MAX_TOKENS"⟩], some ""⟩ =
      otherStopMsg "MAX_TOKENS" ∧
    extract_reply ⟨[⟨some [⟨none⟩], some "SAFETY"⟩], some ""⟩ = emptyPartsMsg := by
  refine ⟨?_, ?_, ?_⟩
  · have h := C7_safety.1 none none "SAFETY" (Or.inl rfl) (Or.inl rfl)
    simpa using h
  · have h := C7_safety.1 (some []) (some "") "MAX_TOKENS" (Or.inr rfl) (Or.inr rfl)
    rw [h]
    decide
  · exact C7_safety.2 [⟨none⟩] (some "SAFETY") (some "") (by decide) (by decide)

/-- C8: the normalizer is idempotent on its own output shape — re-running
the conversion loop on an already-normalized Transcript (re-injected as
raw items by `turnToRaw`) returns the same Transcript: same turns, same
roles, same texts, same order. -/
theorem C8_norm_idempotent :
    ∀ h : List RawItem,
      normalizeLoop ((normalizeLoop h).map turnToRaw) = normalizeLoop h := by
  intro h
  unfold normalizeLoop
  rw [List.filterMap_map]
  apply filterMap_turnToRaw_id
  intro t ht
  rw [List.mem_filterMap] at ht
  obtain ⟨a, _, ha⟩ := ht
  exact normItem_some_inv ha

/-- C9: once a non-empty Transcript was produced, `chat_endpoint`
classifies the outcome solely by whether `generate_response`'s string
starts with "Error:" — HTTP 500 with an error body when it does, HTTP 200
with a response body otherwise; consequently a successfully extracted
model reply (a non-empty candidate-parts concatenation) that itself begins
with "Error:" is reported to the caller as a server error. -/
theorem C9_error_classification :
    (∀ (gw : List Turn → GwResult) (init : Bool) (i : RawItem) (is : List RawItem),
      normalizeLoop (i :: is) ≠ [] →
      chat_endpoint gw init (some (HistoryField.list (i :: is))) =
        if generate_response init (gw (normalizeLoop (i :: is))) ≠ "" ∧
            startswith (generate_response init (gw (normalizeLoop (i :: is)))) "Error:" = true
        then ⟨500, Body.error (generate_response init (gw (normalizeLoop (i :: is))))⟩
        else ⟨200, Body.response (generate_response init (gw (normalizeLoop (i :: is))))⟩) ∧
    (∀ (rest : List Candidate) (t : Option String) (p : RespPart) (ps : List RespPart)
        (i : RawItem) (is : List RawItem),
      normalizeLoop (i :: is) ≠ [] →
      partsText (p :: ps) ≠ "" → startswith (partsText (p :: ps)) "Error:" = true →
      chat_endpoint (fun _ => GwResult.ok ⟨⟨some (p :: ps), none⟩ :: rest, t⟩) true
          (some (HistoryField.list (i :: is))) =
        ⟨500, Body.error (partsText (p :: ps))⟩) := by
  constructor
  · intro gw init i is h
    simp only [chat_endpoint]
    rw [if_neg h]
  · intro rest t p ps i is h hne hsw
    simp only [chat_endpoint]
    rw [if_neg h]
    have hgen : generate_response true
        (GwResult.ok ⟨⟨some (p :: ps), none⟩ :: rest, t⟩) = partsText (p :: ps) := by
      simp [generate_response, extract_reply, hne]
    rw [hgen, if_pos ⟨hne, hsw⟩]

/-- C9 witness: a transport-error string and an extracted reply beginning
with "Error:" both come back as HTTP 500 error bodies. -/
theorem C9_witness :
    chat_endpoint (fun _ => GwResult.exn "x") true
        (some (HistoryField.list [⟨some "user", RawParts.list [RawPart.dict (some "hi")]⟩])) =
      ⟨500, Body.error transportErrorMsg⟩ ∧
    chat_endpoint (fun _ => GwResult.ok ⟨[⟨some [⟨some "Error: ha"⟩], none⟩], none⟩) true
        (some (HistoryField.list [⟨some "user", RawParts.list [RawPart.dict (some "hi")]⟩])) =
      ⟨500, Body.error "Error: ha"⟩ := by
  constructor
  · have h := C9_error_classification.1 (fun _ => GwResult.exn "x") true
      ⟨some "user", RawParts.list [RawPart.dict (some "hi")]⟩ [] (by decide)
    exact h.trans (by decide)
  · have h := C9_error_classification.2 [] none ⟨some "Error: ha"⟩ []
      ⟨some "user", RawParts.list [RawPart.dict (some "hi")]⟩ []
      (by decide) (by decide) (by decide)
    have h2 : partsText [(⟨some "Error: ha"⟩ : RespPart)] = "Error: ha" := by decide
    rw [h2] at h
    exact h

/-- C10: in main.py's `chat`, the turn sequence submitted to the Gateway
(`mainChat` calls `gw` on exactly `mainContents d`) is the converted
conversation history followed by exactly one additional user turn whose
text is the request's `message` field (the empty string when absent), so
the Gateway always receives at least one turn. -/
theorem C10_contents_shape :
    ∀ d : MainData,
      mainContents d =
        (d.history.getD []).map convMsg ++ [⟨"user", [d.message.getD ""]⟩] ∧
      1 ≤ (mainContents d).length := by
  intro d
  have he : mainContents d =
      (d.history.getD []).map convMsg ++ [⟨"user", [d.message.getD ""]⟩] := by
    unfold mainContents
    by_cases h : d.history.getD [] = []
    · simp [h]
    · simp [h, foldl_append_map]
  refine ⟨he, ?_⟩
  rw [he]
  simp
